import Mathlib

/-!
Verification of the 6502_Kernel emulator against its specification.

The development shallowly embeds the core of the repository:
the 6502 CPU interpreter (Computer/CPU6502.cpp), the memory bus with
framebuffer/peripheral dispatch (src/computer/Memory.cpp), the VIC text
framebuffer (src/computer/VIC.cpp) and the PIA keyboard/file peripheral
(src/computer/PIA.cpp).  Machine integers are modelled as Nat with explicit
reductions mod 2^8 / 2^16 exactly where the C++ types truncate; RAM and
register files are functions from Nat.  The out-of-bounds behaviour of
Memory::writeWord is visible because ram is a total function on Nat: the
65536-byte vector bound corresponds to indices < 0x10000.
-/

namespace K6502


/-- Processor state of the 6502 core: registers, status byte, cycle counter
and the attached byte store.  Matches CPU6502::Registers plus cycles_. -/
structure Mach where
  A : Nat
  X : Nat
  Y : Nat
  SP : Nat
  PC : Nat
  P : Nat
  cycles : Nat
  mem : Nat → Nat

/-- Status flag masks, from enum StatusFlags in CPU6502.h. -/
def kCarry : Nat := 0x01

def kZero : Nat := 0x02

def kInterrupt : Nat := 0x04

def kDecimal : Nat := 0x08

def kBreak : Nat := 0x10

def kUnused : Nat := 0x20

def kOverflow : Nat := 0x40

def kNegative : Nat := 0x80

/-- Byte read through the CPU-side store.  The uint16_t parameter of
Memory::read truncates the address; the uint8_t return type truncates
the value. -/
def Mach.read8 (s : Mach) (addr : Nat) : Nat :=
  s.mem (addr % 65536) % 256

/-- Byte write; the address is a uint16_t and the stored value a uint8_t. -/
def Mach.write8 (s : Mach) (addr v : Nat) : Mach :=
  { s with mem := fun a => if a = addr % 65536 then v % 256 else s.mem a }

/-- CPU6502::setFlag: or the mask in, or mask it out (~flag on a uint8). -/
def setFlag (p flag : Nat) (value : Bool) : Nat :=
  if value then p ||| flag else p &&& (0xFF ^^^ flag)

/-- CPU6502::getFlag. -/
def getFlag (p flag : Nat) : Bool :=
  p &&& flag != 0

/-- CPU6502::updateZeroNegativeFlags on the status byte, value a uint8_t. -/
def updateZeroNegativeFlags (p value0 : Nat) : Nat :=
  let value := value0 % 256
  setFlag (setFlag p kZero (value == 0)) kNegative ((value &&& 0x80) != 0)

/-- CPU6502::convertToBcd; the parameter is a uint8_t and the nibble
corrections wrap in 8 bits. -/
def convertToBcd (value0 : Nat) : Nat :=
  let value := value0 % 256
  let value := if value &&& 0x0F > 0x09 then (value + 0x06) % 256 else value
  if value &&& 0xF0 > 0x90 then (value + 0x60) % 256 else value

/-- CPU6502::addValues: A+M+C in 16 bits, flag updates on the status byte,
returns (result byte, new status byte).  The overflow predicate is the
source's narrow val1 < 128 && val2 < 128 && result > 127 test. -/
def addValues (p val1₀ val2₀ : Nat) : Nat × Nat :=
  let val1 := val1₀ % 256
  let val2 := val2₀ % 256
  let result := val1 + val2 + (if getFlag p kCarry then 1 else 0)
  if getFlag p kDecimal then
    let result := convertToBcd result
    let p := setFlag p kCarry (result > 0x99)
    (result % 256, p)
  else
    let p := setFlag p kCarry (result > 0xFF)
    let p := setFlag p kOverflow (val1 < 128 && val2 < 128 && result > 127)
    (result % 256, p)

/-- CPU6502::subtractValues: A-M-(1-C) in a signed 16-bit temporary. -/
def subtractValues (p val1₀ val2₀ : Nat) : Nat × Nat :=
  let val1 := val1₀ % 256
  let val2 := val2₀ % 256
  let result : Int := (val1 : Int) - val2 - (if getFlag p kCarry then 0 else 1)
  if getFlag p kDecimal then
    let result := convertToBcd (result.emod 256).toNat
    let p := setFlag p kCarry (result > 0x99)
    (result % 256, p)
  else
    let p := setFlag p kCarry (result ≥ 0)
    let p := setFlag p kOverflow (val1 < 128 && val2 < 128 && result > 127)
    ((result.emod 256).toNat, p)

/-- CPU6502::compareValues: C from val1 >= val2, Z from equality, and N from
bit 7 of val1 itself (the register operand, not the difference). -/
def compareValues (p val1₀ val2₀ : Nat) : Nat :=
  let val1 := val1₀ % 256
  let val2 := val2₀ % 256
  let p := setFlag p kCarry (val1 ≥ val2)
  let p := setFlag p kZero (val1 == val2)
  setFlag p kNegative ((val1 &&& 0x80) != 0)

/-- Word read through the store, little-endian, as Memory::readWord seen
from the CPU: low byte at addr, high byte at addr+1 (uint16 truncation at
each byte access). -/
def memReadWord (s : Mach) (addr : Nat) : Nat :=
  s.read8 addr ||| (s.read8 (addr + 1) <<< 8)

/-- CPU6502::readByte: one cycle, read at PC, then PC++ (uint16 wrap). -/
def readByteF (s : Mach) : Nat × Mach :=
  (s.read8 s.PC, { s with cycles := s.cycles + 1, PC := (s.PC + 1) % 65536 })

/-- CPU6502::readWord: word at PC, then PC += 2 and two cycles. -/
def readWordF (s : Mach) : Nat × Mach :=
  (memReadWord s s.PC, { s with PC := (s.PC + 2) % 65536, cycles := s.cycles + 2 })

/-- CPU6502::pushByte: write at 0x0100+SP, then SP-- (uint8 wrap), one cycle. -/
def pushByteF (s : Mach) (v : Nat) : Mach :=
  let s := s.write8 (0x100 + s.SP % 256) v
  { s with SP := (s.SP % 256 + 255) % 256, cycles := s.cycles + 1 }

/-- CPU6502::pullByte: SP++ (uint8 wrap), one cycle, read at 0x0100+SP. -/
def pullByteF (s : Mach) : Nat × Mach :=
  let sp := (s.SP % 256 + 1) % 256
  (s.read8 (0x100 + sp), { s with SP := sp, cycles := s.cycles + 1 })

/-- CPU6502::pushStack16: high byte first, then low byte. -/
def pushStack16F (s : Mach) (v : Nat) : Mach :=
  pushByteF (pushByteF s ((v >>> 8) &&& 0xFF)) (v &&& 0xFF)

/-- CPU6502::popStack16: low byte first, then high byte. -/
def popStack16F (s : Mach) : Nat × Mach :=
  let r₁ := pullByteF s
  let r₂ := pullByteF r₁.2
  ((r₂.1 <<< 8) ||| r₁.1, r₂.2)

/-- CPU6502::checkPageBoundaryCrossed: high bytes differ. -/
def checkPageBoundaryCrossed (base_addr final_addr : Nat) : Bool :=
  (base_addr &&& 0xFF00) != (final_addr &&& 0xFF00)

/-- CPU6502::calculateAddress: zero-page (wrapping in page 0) or absolute
with a uint8 index; the page-cross flag is only computed when the offset is
non-zero. -/
def calculateAddress (s : Mach) (use_one_byte : Bool) (offset₀ : Nat) : Nat × Bool :=
  let offset := offset₀ % 256
  if use_one_byte then
    ((s.read8 s.PC + offset) &&& 0xFF, false)
  else
    let base_address := memReadWord s s.PC
    let address := (base_address + offset) % 65536
    (address, if offset != 0 then checkPageBoundaryCrossed base_address address else false)

/-- CPU6502::calculateAddressSimple. -/
def calculateAddressSimple (s : Mach) (use_one_byte : Bool) (offset : Nat) : Nat :=
  (calculateAddress s use_one_byte offset).1

/-- CPU6502::calculateRelativeAddress: signed uint8 offset added to the PC
that already points past the branch operand; int arithmetic truncated back
to uint16 (adding 65536-256 mirrors the negative case). -/
def calculateRelativeAddress (s : Mach) (offset₀ : Nat) : Nat × Bool :=
  let offset := offset₀ % 256
  let current_pc := s.PC % 65536
  let target_pc :=
    if offset < 0x80 then (current_pc + offset) % 65536
    else (current_pc + offset + 65280) % 65536
  (target_pc, checkPageBoundaryCrossed current_pc target_pc)

/-- CPU6502::calculateIndexedAddress for (zp,X): pointer assembled from
(zp+X) & 0xFF and (zp+X+1) & 0xFF, no extra cycle. -/
def calculateIndexedAddress (s : Mach) (offset₀ : Nat) : Nat × Nat :=
  let zp_final := (s.read8 s.PC + offset₀ % 256) &&& 0xFF
  (s.read8 zp_final ||| (s.read8 ((zp_final + 1) &&& 0xFF) <<< 8), 0)

/-- CPU6502::calculateIndirectAddress for (zp),Y with page-cross penalty. -/
def calculateIndirectAddress (s : Mach) (offset₀ : Nat) : Nat × Nat :=
  let zp_addr := s.read8 s.PC &&& 0xFF
  let base_address := s.read8 zp_addr ||| (s.read8 ((zp_addr + 1) &&& 0xFF) <<< 8)
  let address := (base_address + offset₀ % 256) % 65536
  (address, if checkPageBoundaryCrossed base_address address then 1 else 0)

/-- CPU6502::handleAdcBase. -/
def handleAdcBase (s : Mach) (address pc_offset cycles : Nat) : Mach :=
  let val := s.read8 address
  let r := addValues s.P s.A val
  { s with A := r.1, P := updateZeroNegativeFlags r.2 r.1,
           PC := (s.PC + pc_offset) % 65536, cycles := s.cycles + cycles }

def handleAdcImmediate (s : Mach) : Mach := handleAdcBase s s.PC 1 2

def handleAdcZeroPage (s : Mach) : Mach :=
  handleAdcBase s (calculateAddressSimple s true 0) 1 3

def handleAdcZeroPageX (s : Mach) : Mach :=
  handleAdcBase s (calculateAddressSimple s true s.X) 1 4

def handleAdcAbsolute (s : Mach) : Mach :=
  handleAdcBase s (calculateAddressSimple s false 0) 2 4

def handleAdcAbsoluteX (s : Mach) : Mach :=
  let r := calculateAddress s false s.X
  handleAdcBase s r.1 2 (4 + (if r.2 then 1 else 0))

def handleAdcAbsoluteY (s : Mach) : Mach :=
  let r := calculateAddress s false s.Y
  handleAdcBase s r.1 2 (4 + (if r.2 then 1 else 0))

def handleAdcIndexedIndirect (s : Mach) : Mach :=
  handleAdcBase s (calculateIndexedAddress s s.X).1 1 6

def handleAdcIndirectIndexed (s : Mach) : Mach :=
  let r := calculateIndirectAddress s s.Y
  handleAdcBase s r.1 1 (5 + r.2)

/-- CPU6502::handleAndBase. -/
def handleAndBase (s : Mach) (address pc_offset cycles : Nat) : Mach :=
  let a := s.A % 256 &&& s.read8 address
  { s with A := a, P := updateZeroNegativeFlags s.P a,
           PC := (s.PC + pc_offset) % 65536, cycles := s.cycles + cycles }

def handleAndImmediate (s : Mach) : Mach := handleAndBase s s.PC 1 2

def handleAndZeroPage (s : Mach) : Mach :=
  handleAndBase s (calculateAddressSimple s true 0) 1 3

def handleAndZeroPageX (s : Mach) : Mach :=
  handleAndBase s (calculateAddressSimple s true s.X) 1 4

def handleAndAbsolute (s : Mach) : Mach :=
  handleAndBase s (calculateAddressSimple s false 0) 2 4

def handleAndAbsoluteX (s : Mach) : Mach :=
  let r := calculateAddress s false s.X
  handleAndBase s r.1 2 (4 + (if r.2 then 1 else 0))

def handleAndAbsoluteY (s : Mach) : Mach :=
  let r := calculateAddress s false s.Y
  handleAndBase s r.1 2 (4 + (if r.2 then 1 else 0))

def handleAndIndexedIndirect (s : Mach) : Mach :=
  handleAndBase s (calculateIndexedAddress s s.X).1 1 6

def handleAndIndirectIndexed (s : Mach) : Mach :=
  let r := calculateIndirectAddress s s.Y
  handleAndBase s r.1 1 (5 + r.2)

/-- CPU6502::handleAslAccumulator. -/
def handleAslAccumulator (s : Mach) : Mach :=
  let p := setFlag s.P kCarry ((s.A % 256 &&& 0x80) != 0)
  let a := ((s.A % 256) <<< 1) &&& 0xFE
  { s with A := a, P := updateZeroNegativeFlags p a, cycles := s.cycles + 2 }

/-- CPU6502::handleAslBase (read-modify-write). -/
def handleAslBase (s : Mach) (address pc_offset cycles : Nat) : Mach :=
  let val := s.read8 address
  let p := setFlag s.P kCarry ((val &&& 0x80) != 0)
  let val := (val <<< 1) &&& 0xFE
  let s := s.write8 address val
  { s with P := updateZeroNegativeFlags p val,
           PC := (s.PC + pc_offset) % 65536, cycles := s.cycles + cycles }

def handleAslZeroPage (s : Mach) : Mach :=
  handleAslBase s (calculateAddressSimple s true 0) 1 5

def handleAslZeroPageX (s : Mach) : Mach :=
  handleAslBase s (calculateAddressSimple s true s.X) 1 6

def handleAslAbsolute (s : Mach) : Mach :=
  handleAslBase s (calculateAddressSimple s false 0) 2 6

def handleAslAbsoluteX (s : Mach) : Mach :=
  handleAslBase s (calculateAddress s false s.X).1 2 7

/-- Shared body of the eight conditional branches: read the offset byte,
then either take the branch (3 cycles plus page-cross penalty) or fall
through (2 cycles). -/
def handleBranch (s : Mach) (cond : Nat → Bool) : Mach :=
  let r := readByteF s
  let s := r.2
  if cond s.P then
    let t := calculateRelativeAddress s r.1
    { s with PC := t.1, cycles := s.cycles + 3 + (if t.2 then 1 else 0) }
  else
    { s with cycles := s.cycles + 2 }

def handleBcc (s : Mach) : Mach := handleBranch s (fun p => !getFlag p kCarry)

def handleBcs (s : Mach) : Mach := handleBranch s (fun p => getFlag p kCarry)

def handleBeq (s : Mach) : Mach := handleBranch s (fun p => getFlag p kZero)

def handleBmi (s : Mach) : Mach := handleBranch s (fun p => getFlag p kNegative)

def handleBne (s : Mach) : Mach := handleBranch s (fun p => !getFlag p kZero)

def handleBpl (s : Mach) : Mach := handleBranch s (fun p => !getFlag p kNegative)

def handleBvc (s : Mach) : Mach := handleBranch s (fun p => !getFlag p kOverflow)

def handleBvs (s : Mach) : Mach := handleBranch s (fun p => getFlag p kOverflow)

/-- CPU6502::handleBrk: PC += 2, set B in the live P, push PC then P, set I,
load PC from the vector at 0xFFFE/0xFFFF, 7 cycles. -/
def handleBrk (s : Mach) : Mach :=
  let s := { s with PC := (s.PC + 2) % 65536 }
  let s := { s with P := setFlag s.P kBreak true }
  let s := pushStack16F s s.PC
  let s := pushByteF s s.P
  let s := { s with P := setFlag s.P kInterrupt true }
  { s with PC := memReadWord s 0xFFFE, cycles := s.cycles + 7 }

def handleClc (s : Mach) : Mach :=
  { s with P := setFlag s.P kCarry false, cycles := s.cycles + 2 }

def handleCld (s : Mach) : Mach :=
  { s with P := setFlag s.P kDecimal false, cycles := s.cycles + 2 }

def handleCli (s : Mach) : Mach :=
  { s with P := setFlag s.P kInterrupt false, cycles := s.cycles + 2 }

def handleClv (s : Mach) : Mach :=
  { s with P := setFlag s.P kOverflow false, cycles := s.cycles + 2 }

def handleSec (s : Mach) : Mach :=
  { s with P := setFlag s.P kCarry true, cycles := s.cycles + 2 }

def handleSed (s : Mach) : Mach :=
  { s with P := setFlag s.P kDecimal true, cycles := s.cycles + 2 }

def handleSei (s : Mach) : Mach :=
  { s with P := setFlag s.P kInterrupt true, cycles := s.cycles + 2 }

/-- CPU6502::handlePha: pushByte already costs one cycle, plus two more. -/
def handlePha (s : Mach) : Mach :=
  let s := pushByteF s s.A
  { s with cycles := s.cycles + 2 }

/-- CPU6502::handlePhp: pushes P with B and U forced set. -/
def handlePhp (s : Mach) : Mach :=
  let s := pushByteF s (s.P ||| (kBreak ||| kUnused))
  { s with cycles := s.cycles + 2 }

/-- CPU6502::handlePla. -/
def handlePla (s : Mach) : Mach :=
  let r := pullByteF s
  { r.2 with A := r.1, P := updateZeroNegativeFlags r.2.P r.1,
             cycles := r.2.cycles + 3 }

/-- CPU6502::handlePlp: pulled byte has B and U cleared, then U forced set. -/
def handlePlp (s : Mach) : Mach :=
  let r := pullByteF s
  { r.2 with P := (r.1 &&& (0xFF ^^^ (kBreak ||| kUnused))) ||| kUnused,
             cycles := r.2.cycles + 3 }

def handleTax (s : Mach) : Mach :=
  let x := s.A % 256
  { s with X := x, P := updateZeroNegativeFlags s.P x, cycles := s.cycles + 2 }

def handleTay (s : Mach) : Mach :=
  let y := s.A % 256
  { s with Y := y, P := updateZeroNegativeFlags s.P y, cycles := s.cycles + 2 }

def handleTsx (s : Mach) : Mach :=
  let x := s.SP % 256
  { s with X := x, P := updateZeroNegativeFlags s.P x, cycles := s.cycles + 2 }

def handleTxa (s : Mach) : Mach :=
  let a := s.X % 256
  { s with A := a, P := updateZeroNegativeFlags s.P a, cycles := s.cycles + 2 }

def handleTxs (s : Mach) : Mach :=
  { s with SP := s.X % 256, cycles := s.cycles + 2 }

def handleTya (s : Mach) : Mach :=
  let a := s.Y % 256
  { s with A := a, P := updateZeroNegativeFlags s.P a, cycles := s.cycles + 2 }

def handleNop (s : Mach) : Mach :=
  { s with cycles := s.cycles + 2 }

/-- CPU6502::handleLdaBase. -/
def handleLdaBase (s : Mach) (address pc_offset cycles : Nat) : Mach :=
  let val := s.read8 address
  { s with A := val, P := updateZeroNegativeFlags s.P val,
           PC := (s.PC + pc_offset) % 65536, cycles := s.cycles + cycles }

def handleLdaImmediate (s : Mach) : Mach := handleLdaBase s s.PC 1 2

def handleLdaZeroPage (s : Mach) : Mach :=
  handleLdaBase s (calculateAddressSimple s true 0) 1 3

def handleLdaZeroPageX (s : Mach) : Mach :=
  handleLdaBase s (calculateAddressSimple s true s.X) 1 4

def handleLdaAbsolute (s : Mach) : Mach :=
  handleLdaBase s (calculateAddressSimple s false 0) 2 4

def handleLdaAbsoluteX (s : Mach) : Mach :=
  let r := calculateAddress s false s.X
  handleLdaBase s r.1 2 (4 + (if r.2 then 1 else 0))

def handleLdaAbsoluteY (s : Mach) : Mach :=
  let r := calculateAddress s false s.Y
  handleLdaBase s r.1 2 (4 + (if r.2 then 1 else 0))

def handleLdaIndexedIndirect (s : Mach) : Mach :=
  handleLdaBase s (calculateIndexedAddress s s.X).1 1 6

def handleLdaIndirectIndexed (s : Mach) : Mach :=
  let r := calculateIndirectAddress s s.Y
  handleLdaBase s r.1 1 (5 + r.2)

/-- CPU6502::handleJmpBase. -/
def handleJmpBase (s : Mach) (address _pc_offset cycles : Nat) : Mach :=
  { s with PC := address % 65536, cycles := s.cycles + cycles }

def handleJmpAbsolute (s : Mach) : Mach :=
  let r := readWordF s
  handleJmpBase r.2 r.1 0 3

def handleJmpIndirect (s : Mach) : Mach :=
  let r := readWordF s
  handleJmpBase r.2 (memReadWord r.2 r.1) 0 5

/-- CPU6502::handleStaBase. -/
def handleStaBase (s : Mach) (address pc_offset cycles : Nat) : Mach :=
  let s := s.write8 address s.A
  { s with PC := (s.PC + pc_offset) % 65536, cycles := s.cycles + cycles }

def handleStaZeroPage (s : Mach) : Mach :=
  handleStaBase s (calculateAddressSimple s true 0) 1 3

def handleStaZeroPageX (s : Mach) : Mach :=
  handleStaBase s (calculateAddressSimple s true s.X) 1 4

def handleStaAbsolute (s : Mach) : Mach :=
  handleStaBase s (calculateAddressSimple s false 0) 2 4

def handleStaAbsoluteX (s : Mach) : Mach :=
  handleStaBase s (calculateAddress s false s.X).1 2 5

def handleStaAbsoluteY (s : Mach) : Mach :=
  handleStaBase s (calculateAddress s false s.Y).1 2 5

def handleStaIndexedIndirect (s : Mach) : Mach :=
  handleStaBase s (calculateIndexedAddress s s.X).1 1 6

def handleStaIndirectIndexed (s : Mach) : Mach :=
  handleStaBase s (calculateIndirectAddress s s.Y).1 1 6

/-- CPU6502::handleJsr: return address is PC+1 (last byte of the JSR),
captured before readWord advances PC. -/
def handleJsr (s : Mach) : Mach :=
  let return_address := (s.PC + 1) % 65536
  let r := readWordF s
  let s := pushStack16F r.2 return_address
  { s with PC := r.1 % 65536, cycles := s.cycles + 6 }

/-- CPU6502::handleRts. -/
def handleRts (s : Mach) : Mach :=
  let r := popStack16F s
  { r.2 with PC := (r.1 + 1) % 65536, cycles := r.2.cycles + 6 }

/-- CPU6502::handleRti: pull P with the PLP masking, then pull PC. -/
def handleRti (s : Mach) : Mach :=
  let r := pullByteF s
  let s := { r.2 with P := (r.1 &&& (0xFF ^^^ (kBreak ||| kUnused))) ||| kUnused }
  let r₂ := popStack16F s
  { r₂.2 with PC := r₂.1 % 65536, cycles := r₂.2.cycles + 6 }

/-- CPU6502::handleLdxBase. -/
def handleLdxBase (s : Mach) (address pc_offset cycles : Nat) : Mach :=
  let val := s.read8 address
  { s with X := val, P := updateZeroNegativeFlags s.P val,
           PC := (s.PC + pc_offset) % 65536, cycles := s.cycles + cycles }

def handleLdxImmediate (s : Mach) : Mach := handleLdxBase s s.PC 1 2

def handleLdxZeroPage (s : Mach) : Mach :=
  handleLdxBase s (calculateAddressSimple s true 0) 1 3

def handleLdxZeroPageY (s : Mach) : Mach :=
  handleLdxBase s (calculateAddressSimple s true s.Y) 1 4

def handleLdxAbsolute (s : Mach) : Mach :=
  handleLdxBase s (calculateAddressSimple s false 0) 2 4

def handleLdxAbsoluteY (s : Mach) : Mach :=
  let r := calculateAddress s false s.Y
  handleLdxBase s r.1 2 (4 + (if r.2 then 1 else 0))

/-- CPU6502::handleLdyBase. -/
def handleLdyBase (s : Mach) (address pc_offset cycles : Nat) : Mach :=
  let val := s.read8 address
  { s with Y := val, P := updateZeroNegativeFlags s.P val,
           PC := (s.PC + pc_offset) % 65536, cycles := s.cycles + cycles }

def handleLdyImmediate (s : Mach) : Mach := handleLdyBase s s.PC 1 2

def handleLdyZeroPage (s : Mach) : Mach :=
  handleLdyBase s (calculateAddressSimple s true 0) 1 3

def handleLdyZeroPageX (s : Mach) : Mach :=
  handleLdyBase s (calculateAddressSimple s true s.X) 1 4

def handleLdyAbsolute (s : Mach) : Mach :=
  handleLdyBase s (calculateAddressSimple s false 0) 2 4

def handleLdyAbsoluteX (s : Mach) : Mach :=
  let r := calculateAddress s false s.X
  handleLdyBase s r.1 2 (4 + (if r.2 then 1 else 0))

/-- CPU6502::handleStxBase. -/
def handleStxBase (s : Mach) (address pc_offset cycles : Nat) : Mach :=
  let s := s.write8 address s.X
  { s with PC := (s.PC + pc_offset) % 65536, cycles := s.cycles + cycles }

def handleStxZeroPage (s : Mach) : Mach :=
  handleStxBase s (calculateAddressSimple s true 0) 1 3

def handleStxZeroPageY (s : Mach) : Mach :=
  handleStxBase s (calculateAddressSimple s true s.Y) 1 4

def handleStxAbsolute (s : Mach) : Mach :=
  handleStxBase s (calculateAddressSimple s false 0) 2 4

/-- CPU6502::handleStyBase. -/
def handleStyBase (s : Mach) (address pc_offset cycles : Nat) : Mach :=
  let s := s.write8 address s.Y
  { s with PC := (s.PC + pc_offset) % 65536, cycles := s.cycles + cycles }

def handleStyZeroPage (s : Mach) : Mach :=
  handleStyBase s (calculateAddressSimple s true 0) 1 3

def handleStyZeroPageX (s : Mach) : Mach :=
  handleStyBase s (calculateAddressSimple s true s.X) 1 4

def handleStyAbsolute (s : Mach) : Mach :=
  handleStyBase s (calculateAddressSimple s false 0) 2 4

/-- CPU6502::handleCmpBase. -/
def handleCmpBase (s : Mach) (address pc_offset cycles : Nat) : Mach :=
  { s with P := compareValues s.P s.A (s.read8 address),
           PC := (s.PC + pc_offset) % 65536, cycles := s.cycles + cycles }

def handleCmpImmediate (s : Mach) : Mach := handleCmpBase s s.PC 1 2

def handleCmpZeroPage (s : Mach) : Mach :=
  handleCmpBase s (calculateAddressSimple s true 0) 1 3

def handleCmpZeroPageX (s : Mach) : Mach :=
  handleCmpBase s (calculateAddressSimple s true s.X) 1 4

def handleCmpAbsolute (s : Mach) : Mach :=
  handleCmpBase s (calculateAddressSimple s false 0) 2 4

def handleCmpAbsoluteX (s : Mach) : Mach :=
  let r := calculateAddress s false s.X
  handleCmpBase s r.1 2 (4 + (if r.2 then 1 else 0))

def handleCmpAbsoluteY (s : Mach) : Mach :=
  let r := calculateAddress s false s.Y
  handleCmpBase s r.1 2 (4 + (if r.2 then 1 else 0))

def handleCmpIndexedIndirect (s : Mach) : Mach :=
  handleCmpBase s (calculateIndexedAddress s s.X).1 1 6

def handleCmpIndirectIndexed (s : Mach) : Mach :=
  let r := calculateIndirectAddress s s.Y
  handleCmpBase s r.1 1 (5 + r.2)

/-- CPU6502::handleCpxBase. -/
def handleCpxBase (s : Mach) (address pc_offset cycles : Nat) : Mach :=
  { s with P := compareValues s.P s.X (s.read8 address),
           PC := (s.PC + pc_offset) % 65536, cycles := s.cycles + cycles }

def handleCpxImmediate (s : Mach) : Mach := handleCpxBase s s.PC 1 2

def handleCpxZeroPage (s : Mach) : Mach :=
  handleCpxBase s (calculateAddressSimple s true 0) 1 3

def handleCpxAbsolute (s : Mach) : Mach :=
  handleCpxBase s (calculateAddressSimple s false 0) 2 4

/-- CPU6502::handleCpyBase. -/
def handleCpyBase (s : Mach) (address pc_offset cycles : Nat) : Mach :=
  { s with P := compareValues s.P s.Y (s.read8 address),
           PC := (s.PC + pc_offset) % 65536, cycles := s.cycles + cycles }

def handleCpyImmediate (s : Mach) : Mach := handleCpyBase s s.PC 1 2

def handleCpyZeroPage (s : Mach) : Mach :=
  handleCpyBase s (calculateAddressSimple s true 0) 1 3

def handleCpyAbsolute (s : Mach) : Mach :=
  handleCpyBase s (calculateAddressSimple s false 0) 2 4

/-- CPU6502::handleSbcBase. -/
def handleSbcBase (s : Mach) (address pc_offset cycles : Nat) : Mach :=
  let val := s.read8 address
  let r := subtractValues s.P s.A val
  { s with A := r.1, P := updateZeroNegativeFlags r.2 r.1,
           PC := (s.PC + pc_offset) % 65536, cycles := s.cycles + cycles }

def handleSbcImmediate (s : Mach) : Mach := handleSbcBase s s.PC 1 2

def handleSbcZeroPage (s : Mach) : Mach :=
  handleSbcBase s (calculateAddressSimple s true 0) 1 3

def handleSbcZeroPageX (s : Mach) : Mach :=
  handleSbcBase s (calculateAddressSimple s true s.X) 1 4

def handleSbcAbsolute (s : Mach) : Mach :=
  handleSbcBase s (calculateAddressSimple s false 0) 2 4

def handleSbcAbsoluteX (s : Mach) : Mach :=
  let r := calculateAddress s false s.X
  handleSbcBase s r.1 2 (4 + (if r.2 then 1 else 0))

def handleSbcAbsoluteY (s : Mach) : Mach :=
  let r := calculateAddress s false s.Y
  handleSbcBase s r.1 2 (4 + (if r.2 then 1 else 0))

def handleSbcIndexedIndirect (s : Mach) : Mach :=
  handleSbcBase s (calculateIndexedAddress s s.X).1 1 6

def handleSbcIndirectIndexed (s : Mach) : Mach :=
  let r := calculateIndirectAddress s s.Y
  handleSbcBase s r.1 1 (5 + r.2)

/-- CPU6502::handleEorBase. -/
def handleEorBase (s : Mach) (address pc_offset cycles : Nat) : Mach :=
  let a := s.A % 256 ^^^ s.read8 address
  { s with A := a, P := updateZeroNegativeFlags s.P a,
           PC := (s.PC + pc_offset) % 65536, cycles := s.cycles + cycles }

def handleEorImmediate (s : Mach) : Mach := handleEorBase s s.PC 1 2

def handleEorZeroPage (s : Mach) : Mach :=
  handleEorBase s (calculateAddressSimple s true 0) 1 3

def handleEorZeroPageX (s : Mach) : Mach :=
  handleEorBase s (calculateAddressSimple s true s.X) 1 4

def handleEorAbsolute (s : Mach) : Mach :=
  handleEorBase s (calculateAddressSimple s false 0) 2 4

def handleEorAbsoluteX (s : Mach) : Mach :=
  let r := calculateAddress s false s.X
  handleEorBase s r.1 2 (4 + (if r.2 then 1 else 0))

def handleEorAbsoluteY (s : Mach) : Mach :=
  let r := calculateAddress s false s.Y
  handleEorBase s r.1 2 (4 + (if r.2 then 1 else 0))

def handleEorIndexedIndirect (s : Mach) : Mach :=
  handleEorBase s (calculateIndexedAddress s s.X).1 1 6

def handleEorIndirectIndexed (s : Mach) : Mach :=
  let r := calculateIndirectAddress s s.Y
  handleEorBase s r.1 1 (5 + r.2)

/-- CPU6502::handleOraBase. -/
def handleOraBase (s : Mach) (address pc_offset cycles : Nat) : Mach :=
  let a := s.A % 256 ||| s.read8 address
  { s with A := a, P := updateZeroNegativeFlags s.P a,
           PC := (s.PC + pc_offset) % 65536, cycles := s.cycles + cycles }

def handleOraImmediate (s : Mach) : Mach := handleOraBase s s.PC 1 2

def handleOraZeroPage (s : Mach) : Mach :=
  handleOraBase s (calculateAddressSimple s true 0) 1 3

def handleOraZeroPageX (s : Mach) : Mach :=
  handleOraBase s (calculateAddressSimple s true s.X) 1 4

def handleOraAbsolute (s : Mach) : Mach :=
  handleOraBase s (calculateAddressSimple s false 0) 2 4

def handleOraAbsoluteX (s : Mach) : Mach :=
  let r := calculateAddress s false s.X
  handleOraBase s r.1 2 (4 + (if r.2 then 1 else 0))

def handleOraAbsoluteY (s : Mach) : Mach :=
  let r := calculateAddress s false s.Y
  handleOraBase s r.1 2 (4 + (if r.2 then 1 else 0))

def handleOraIndexedIndirect (s : Mach) : Mach :=
  handleOraBase s (calculateIndexedAddress s s.X).1 1 6

def handleOraIndirectIndexed (s : Mach) : Mach :=
  let r := calculateIndirectAddress s s.Y
  handleOraBase s r.1 1 (5 + r.2)

/-- CPU6502::handleBitBase. -/
def handleBitBase (s : Mach) (address pc_offset cycles : Nat) : Mach :=
  let val := s.read8 address
  let p := setFlag s.P kZero ((s.A % 256 &&& val) == 0)
  let p := setFlag p kNegative ((val &&& 0x80) != 0)
  let p := setFlag p kOverflow ((val &&& 0x40) != 0)
  { s with P := p, PC := (s.PC + pc_offset) % 65536, cycles := s.cycles + cycles }

def handleBitZeroPage (s : Mach) : Mach :=
  handleBitBase s (calculateAddressSimple s true 0) 1 3

def handleBitAbsolute (s : Mach) : Mach :=
  handleBitBase s (calculateAddressSimple s false 0) 2 4

/-- CPU6502::handleLsrAccumulator. -/
def handleLsrAccumulator (s : Mach) : Mach :=
  let p := setFlag s.P kCarry ((s.A % 256 &&& 0x01) != 0)
  let a := s.A % 256 >>> 1
  { s with A := a, P := updateZeroNegativeFlags p a, cycles := s.cycles + 2 }

/-- CPU6502::handleLsrBase. -/
def handleLsrBase (s : Mach) (address pc_offset cycles : Nat) : Mach :=
  let val := s.read8 address
  let p := setFlag s.P kCarry ((val &&& 0x01) != 0)
  let val := val >>> 1
  let s := s.write8 address val
  { s with P := updateZeroNegativeFlags p val,
           PC := (s.PC + pc_offset) % 65536, cycles := s.cycles + cycles }

def handleLsrZeroPage (s : Mach) : Mach :=
  handleLsrBase s (calculateAddressSimple s true 0) 1 5

def handleLsrZeroPageX (s : Mach) : Mach :=
  handleLsrBase s (calculateAddressSimple s true s.X) 1 6

def handleLsrAbsolute (s : Mach) : Mach :=
  handleLsrBase s (calculateAddressSimple s false 0) 2 6

def handleLsrAbsoluteX (s : Mach) : Mach :=
  handleLsrBase s (calculateAddress s false s.X).1 2 7

/-- CPU6502::handleRolAccumulator. -/
def handleRolAccumulator (s : Mach) : Mach :=
  let old_carry := getFlag s.P kCarry
  let p := setFlag s.P kCarry ((s.A % 256 &&& 0x80) != 0)
  let a := (((s.A % 256) <<< 1) ||| (if old_carry then 1 else 0)) % 256
  { s with A := a, P := updateZeroNegativeFlags p a, cycles := s.cycles + 2 }

/-- CPU6502::handleRolBase. -/
def handleRolBase (s : Mach) (address pc_offset cycles : Nat) : Mach :=
  let val := s.read8 address
  let old_carry := getFlag s.P kCarry
  let p := setFlag s.P kCarry ((val &&& 0x80) != 0)
  let val := ((val <<< 1) ||| (if old_carry then 1 else 0)) % 256
  let s := s.write8 address val
  { s with P := updateZeroNegativeFlags p val,
           PC := (s.PC + pc_offset) % 65536, cycles := s.cycles + cycles }

def handleRolZeroPage (s : Mach) : Mach :=
  handleRolBase s (calculateAddressSimple s true 0) 1 5

def handleRolZeroPageX (s : Mach) : Mach :=
  handleRolBase s (calculateAddressSimple s true s.X) 1 6

def handleRolAbsolute (s : Mach) : Mach :=
  handleRolBase s (calculateAddressSimple s false 0) 2 6

def handleRolAbsoluteX (s : Mach) : Mach :=
  handleRolBase s (calculateAddress s false s.X).1 2 7

/-- CPU6502::handleRorAccumulator. -/
def handleRorAccumulator (s : Mach) : Mach :=
  let old_carry := getFlag s.P kCarry
  let p := setFlag s.P kCarry ((s.A % 256 &&& 0x01) != 0)
  let a := (s.A % 256 >>> 1) ||| (if old_carry then 0x80 else 0)
  { s with A := a, P := updateZeroNegativeFlags p a, cycles := s.cycles + 2 }

/-- CPU6502::handleRorBase. -/
def handleRorBase (s : Mach) (address pc_offset cycles : Nat) : Mach :=
  let val := s.read8 address
  let old_carry := getFlag s.P kCarry
  let p := setFlag s.P kCarry ((val &&& 0x01) != 0)
  let val := (val >>> 1) ||| (if old_carry then 0x80 else 0)
  let s := s.write8 address val
  { s with P := updateZeroNegativeFlags p val,
           PC := (s.PC + pc_offset) % 65536, cycles := s.cycles + cycles }

def handleRorZeroPage (s : Mach) : Mach :=
  handleRorBase s (calculateAddressSimple s true 0) 1 5

def handleRorZeroPageX (s : Mach) : Mach :=
  handleRorBase s (calculateAddressSimple s true s.X) 1 6

def handleRorAbsolute (s : Mach) : Mach :=
  handleRorBase s (calculateAddressSimple s false 0) 2 6

def handleRorAbsoluteX (s : Mach) : Mach :=
  handleRorBase s (calculateAddress s false s.X).1 2 7

/-- CPU6502::handleIncBase (uint8 increment wraps). -/
def handleIncBase (s : Mach) (address pc_offset cycles : Nat) : Mach :=
  let val := (s.read8 address + 1) % 256
  let s := s.write8 address val
  { s with P := updateZeroNegativeFlags s.P val,
           PC := (s.PC + pc_offset) % 65536, cycles := s.cycles + cycles }

def handleIncZeroPage (s : Mach) : Mach :=
  handleIncBase s (calculateAddressSimple s true 0) 1 5

def handleIncZeroPageX (s : Mach) : Mach :=
  handleIncBase s (calculateAddressSimple s true s.X) 1 6

def handleIncAbsolute (s : Mach) : Mach :=
  handleIncBase s (calculateAddressSimple s false 0) 2 6

def handleIncAbsoluteX (s : Mach) : Mach :=
  handleIncBase s (calculateAddress s false s.X).1 2 7

/-- CPU6502::handleDecBase (uint8 decrement wraps). -/
def handleDecBase (s : Mach) (address pc_offset cycles : Nat) : Mach :=
  let val := (s.read8 address + 255) % 256
  let s := s.write8 address val
  { s with P := updateZeroNegativeFlags s.P val,
           PC := (s.PC + pc_offset) % 65536, cycles := s.cycles + cycles }

def handleDecZeroPage (s : Mach) : Mach :=
  handleDecBase s (calculateAddressSimple s true 0) 1 5

def handleDecZeroPageX (s : Mach) : Mach :=
  handleDecBase s (calculateAddressSimple s true s.X) 1 6

def handleDecAbsolute (s : Mach) : Mach :=
  handleDecBase s (calculateAddressSimple s false 0) 2 6

def handleDecAbsoluteX (s : Mach) : Mach :=
  handleDecBase s (calculateAddress s false s.X).1 2 7

def handleInx (s : Mach) : Mach :=
  let x := (s.X % 256 + 1) % 256
  { s with X := x, P := updateZeroNegativeFlags s.P x, cycles := s.cycles + 2 }

def handleIny (s : Mach) : Mach :=
  let y := (s.Y % 256 + 1) % 256
  { s with Y := y, P := updateZeroNegativeFlags s.P y, cycles := s.cycles + 2 }

def handleDex (s : Mach) : Mach :=
  let x := (s.X % 256 + 255) % 256
  { s with X := x, P := updateZeroNegativeFlags s.P x, cycles := s.cycles + 2 }

def handleDey (s : Mach) : Mach :=
  let y := (s.Y % 256 + 255) % 256
  { s with Y := y, P := updateZeroNegativeFlags s.P y, cycles := s.cycles + 2 }

/-- Opcode dispatch table, mirroring the handlers_ map built by
CPU6502::initializeInstructionHandlers: an association from opcode to
handler; an opcode outside the legal set has no entry. -/
def handlers : List (Nat × (Mach → Mach)) :=
  [(0x00, handleBrk),
   (0xEA, handleNop),
   (0x20, handleJsr),
   (0x60, handleRts),
   (0x40, handleRti),
   (0xA9, handleLdaImmediate),
   (0xA5, handleLdaZeroPage),
   (0xB5, handleLdaZeroPageX),
   (0xAD, handleLdaAbsolute),
   (0xBD, handleLdaAbsoluteX),
   (0xB9, handleLdaAbsoluteY),
   (0xA1, handleLdaIndexedIndirect),
   (0xB1, handleLdaIndirectIndexed),
   (0x85, handleStaZeroPage),
   (0x95, handleStaZeroPageX),
   (0x8D, handleStaAbsolute),
   (0x9D, handleStaAbsoluteX),
   (0x99, handleStaAbsoluteY),
   (0x81, handleStaIndexedIndirect),
   (0x91, handleStaIndirectIndexed),
   (0x4C, handleJmpAbsolute),
   (0x6C, handleJmpIndirect),
   (0x29, handleAndImmediate),
   (0x25, handleAndZeroPage),
   (0x35, handleAndZeroPageX),
   (0x2D, handleAndAbsolute),
   (0x3D, handleAndAbsoluteX),
   (0x39, handleAndAbsoluteY),
   (0x21, handleAndIndexedIndirect),
   (0x31, handleAndIndirectIndexed),
   (0xA2, handleLdxImmediate),
   (0xA6, handleLdxZeroPage),
   (0xB6, handleLdxZeroPageY),
   (0xAE, handleLdxAbsolute),
   (0xBE, handleLdxAbsoluteY),
   (0xA0, handleLdyImmediate),
   (0xA4, handleLdyZeroPage),
   (0xB4, handleLdyZeroPageX),
   (0xAC, handleLdyAbsolute),
   (0xBC, handleLdyAbsoluteX),
   (0x86, handleStxZeroPage),
   (0x96, handleStxZeroPageY),
   (0x8E, handleStxAbsolute),
   (0x84, handleStyZeroPage),
   (0x94, handleStyZeroPageX),
   (0x8C, handleStyAbsolute),
   (0x90, handleBcc),
   (0xB0, handleBcs),
   (0xF0, handleBeq),
   (0x30, handleBmi),
   (0xD0, handleBne),
   (0x10, handleBpl),
   (0x50, handleBvc),
   (0x70, handleBvs),
   (0x69, handleAdcImmediate),
   (0x65, handleAdcZeroPage),
   (0x75, handleAdcZeroPageX),
   (0x6D, handleAdcAbsolute),
   (0x7D, handleAdcAbsoluteX),
   (0x79, handleAdcAbsoluteY),
   (0x61, handleAdcIndexedIndirect),
   (0x71, handleAdcIndirectIndexed),
   (0xE9, handleSbcImmediate),
   (0xE5, handleSbcZeroPage),
   (0xF5, handleSbcZeroPageX),
   (0xED, handleSbcAbsolute),
   (0xFD, handleSbcAbsoluteX),
   (0xF9, handleSbcAbsoluteY),
   (0xE1, handleSbcIndexedIndirect),
   (0xF1, handleSbcIndirectIndexed),
   (0xC9, handleCmpImmediate),
   (0xC5, handleCmpZeroPage),
   (0xD5, handleCmpZeroPageX),
   (0xCD, handleCmpAbsolute),
   (0xDD, handleCmpAbsoluteX),
   (0xD9, handleCmpAbsoluteY),
   (0xC1, handleCmpIndexedIndirect),
   (0xD1, handleCmpIndirectIndexed),
   (0xE0, handleCpxImmediate),
   (0xE4, handleCpxZeroPage),
   (0xEC, handleCpxAbsolute),
   (0xC0, handleCpyImmediate),
   (0xC4, handleCpyZeroPage),
   (0xCC, handleCpyAbsolute),
   (0x49, handleEorImmediate),
   (0x45, handleEorZeroPage),
   (0x55, handleEorZeroPageX),
   (0x4D, handleEorAbsolute),
   (0x5D, handleEorAbsoluteX),
   (0x59, handleEorAbsoluteY),
   (0x41, handleEorIndexedIndirect),
   (0x51, handleEorIndirectIndexed),
   (0x09, handleOraImmediate),
   (0x05, handleOraZeroPage),
   (0x15, handleOraZeroPageX),
   (0x0D, handleOraAbsolute),
   (0x1D, handleOraAbsoluteX),
   (0x19, handleOraAbsoluteY),
   (0x01, handleOraIndexedIndirect),
   (0x11, handleOraIndirectIndexed),
   (0x24, handleBitZeroPage),
   (0x2C, handleBitAbsolute),
   (0x0A, handleAslAccumulator),
   (0x06, handleAslZeroPage),
   (0x16, handleAslZeroPageX),
   (0x0E, handleAslAbsolute),
   (0x1E, handleAslAbsoluteX),
   (0x4A, handleLsrAccumulator),
   (0x46, handleLsrZeroPage),
   (0x56, handleLsrZeroPageX),
   (0x4E, handleLsrAbsolute),
   (0x5E, handleLsrAbsoluteX),
   (0x2A, handleRolAccumulator),
   (0x26, handleRolZeroPage),
   (0x36, handleRolZeroPageX),
   (0x2E, handleRolAbsolute),
   (0x3E, handleRolAbsoluteX),
   (0x6A, handleRorAccumulator),
   (0x66, handleRorZeroPage),
   (0x76, handleRorZeroPageX),
   (0x6E, handleRorAbsolute),
   (0x7E, handleRorAbsoluteX),
   (0xE6, handleIncZeroPage),
   (0xF6, handleIncZeroPageX),
   (0xEE, handleIncAbsolute),
   (0xFE, handleIncAbsoluteX),
   (0xC6, handleDecZeroPage),
   (0xD6, handleDecZeroPageX),
   (0xCE, handleDecAbsolute),
   (0xDE, handleDecAbsoluteX),
   (0xE8, handleInx),
   (0xC8, handleIny),
   (0xCA, handleDex),
   (0x88, handleDey),
   (0x18, handleClc),
   (0xD8, handleCld),
   (0x58, handleCli),
   (0xB8, handleClv),
   (0x38, handleSec),
   (0xF8, handleSed),
   (0x78, handleSei),
   (0x48, handlePha),
   (0x08, handlePhp),
   (0x68, handlePla),
   (0x28, handlePlp),
   (0xAA, handleTax),
   (0xA8, handleTay),
   (0xBA, handleTsx),
   (0x8A, handleTxa),
   (0x9A, handleTxs),
   (0x98, handleTya)]

/-- Lookup in the handlers_ map, as handlers_.find(opcode). -/
def decode (opcode : Nat) : Option (Mach → Mach) :=
  (handlers.find? (fun e => e.1 == opcode)).map (fun e => e.2)

/-- The legal opcode set: exactly the keys registered in the handlers_ map. -/
def legalOpcodes : List Nat :=
  [0x00, 0xEA, 0x20, 0x60, 0x40,
   0xA9, 0xA5, 0xB5, 0xAD, 0xBD, 0xB9, 0xA1, 0xB1,
   0x85, 0x95, 0x8D, 0x9D, 0x99, 0x81, 0x91,
   0x4C, 0x6C,
   0x29, 0x25, 0x35, 0x2D, 0x3D, 0x39, 0x21, 0x31,
   0xA2, 0xA6, 0xB6, 0xAE, 0xBE,
   0xA0, 0xA4, 0xB4, 0xAC, 0xBC,
   0x86, 0x96, 0x8E,
   0x84, 0x94, 0x8C,
   0x90, 0xB0, 0xF0, 0x30, 0xD0, 0x10, 0x50, 0x70,
   0x69, 0x65, 0x75, 0x6D, 0x7D, 0x79, 0x61, 0x71,
   0xE9, 0xE5, 0xF5, 0xED, 0xFD, 0xF9, 0xE1, 0xF1,
   0xC9, 0xC5, 0xD5, 0xCD, 0xDD, 0xD9, 0xC1, 0xD1,
   0xE0, 0xE4, 0xEC,
   0xC0, 0xC4, 0xCC,
   0x49, 0x45, 0x55, 0x4D, 0x5D, 0x59, 0x41, 0x51,
   0x09, 0x05, 0x15, 0x0D, 0x1D, 0x19, 0x01, 0x11,
   0x24, 0x2C,
   0x0A, 0x06, 0x16, 0x0E, 0x1E,
   0x4A, 0x46, 0x56, 0x4E, 0x5E,
   0x2A, 0x26, 0x36, 0x2E, 0x3E,
   0x6A, 0x66, 0x76, 0x6E, 0x7E,
   0xE6, 0xF6, 0xEE, 0xFE,
   0xC6, 0xD6, 0xCE, 0xDE,
   0xE8, 0xC8, 0xCA, 0x88,
   0x18, 0xD8, 0x58, 0xB8, 0x38, 0xF8, 0x78,
   0x48, 0x08, 0x68, 0x28,
   0xAA, 0xA8, 0xBA, 0x8A, 0x9A, 0x98]

/-- CPU6502::executeSingleInstruction: fetch the opcode (cycle and PC side
effects happen unconditionally), then run the handler if one is registered,
otherwise report false. -/
def executeSingleInstruction (s : Mach) : Bool × Mach :=
  let r := readByteF s
  match decode r.1 with
  | some h => (true, h r.2)
  | none => (false, r.2)

/-- Run the step function n times, ignoring the ok flag. -/
def stepN : Nat → Mach → Mach
  | 0, s => s
  | n + 1, s => stepN n (executeSingleInstruction s).2

/-- CPU6502::reset: clear registers, SP = 0xFF, P = U|I, PC from the reset
vector at 0xFFFC, cycle counter cleared. -/
def reset (s : Mach) : Mach :=
  { s with A := 0, X := 0, Y := 0, SP := 0xFF, P := 0x20 ||| kInterrupt,
           PC := memReadWord s 0xFFFC, cycles := 0 }

/-- Stack-push instruction kinds for the PHA/PHP round-trip property. -/
inductive StackOp where
  | pha : StackOp
  | php : StackOp
deriving DecidableEq

/-- One executed PHA instruction: opcode fetch then the handler. -/
def stepPha (s : Mach) : Mach := handlePha (readByteF s).2

/-- One executed PHP instruction: opcode fetch then the handler. -/
def stepPhp (s : Mach) : Mach := handlePhp (readByteF s).2

/-- One executed PLA instruction: opcode fetch then the handler. -/
def stepPla (s : Mach) : Mach := handlePla (readByteF s).2

/-- One executed PLP instruction: opcode fetch then the handler. -/
def stepPlp (s : Mach) : Mach := handlePlp (readByteF s).2

/-- Push instruction of a stack-op kind. -/
def pushStep : StackOp → Mach → Mach
  | .pha, s => stepPha s
  | .php, s => stepPhp s

/-- Matching pull instruction of a stack-op kind (PHA is undone by PLA,
PHP by PLP). -/
def pullStep : StackOp → Mach → Mach
  | .pha, s => stepPla s
  | .php, s => stepPlp s

/-- Execute the pushes of a sequence in list order. -/
def runPushes : List StackOp → Mach → Mach
  | [], s => s
  | p :: ps, s => runPushes ps (pushStep p s)

/-- Execute the matching pulls in LIFO order: the pull for the head of the
list (the earliest, deepest push) comes last. -/
def runPulls : List StackOp → Mach → Mach
  | [], s => s
  | p :: ps, s => pullStep p (runPulls ps s)

/-- Byte that a push of the given kind deposits on the stack: PHA pushes A,
PHP pushes P with B and U forced set. -/
def pushVal : StackOp → Mach → Nat
  | .pha, s => s.A
  | .php, s => s.P ||| (kBreak ||| kUnused)


/-- RAM image of scenario S1: bytes A9 42 8D 34 12 00 at 0x0200, zero
elsewhere. -/
def s1Mem : Nat → Nat := fun a =>
  if a = 0x200 then 0xA9 else if a = 0x201 then 0x42
  else if a = 0x202 then 0x8D else if a = 0x203 then 0x34
  else if a = 0x204 then 0x12 else 0

/-- Initial machine of scenario S1: PC = 0x0200, SP = 0xFF, P = 0x24. -/
def s1Mach : Mach :=
  { A := 0, X := 0, Y := 0, SP := 0xFF, PC := 0x200, P := 0x24, cycles := 0, mem := s1Mem }

/-- A machine over all-zero memory; byte 0x00 is the BRK opcode, and the
reset vector reads as 0x0000. -/
def zeroMach : Mach :=
  { A := 0, X := 0, Y := 0, SP := 0, PC := 0, P := 0, cycles := 0, mem := fun _ => 0 }

/-- A reset-like machine sitting on a BRK opcode, for the C4 witness. -/
def brkMach : Mach :=
  { A := 0, X := 0, Y := 0, SP := 0xFF, PC := 0x8000, P := 0x24, cycles := 0, mem := fun _ => 0 }

/-- A machine whose memory is filled with the illegal opcode 0xFF. -/
def illegalMach : Mach :=
  { A := 7, X := 8, Y := 9, SP := 0xFD, PC := 0x1234, P := 0x24, cycles := 5,
    mem := fun _ => 0xFF }

/-- Push sequence of 257 instructions (256 PHA then one PHP): one more than
the stack can hold. -/
def cePushes : List StackOp := List.replicate 256 .pha ++ [.php]

/-- Starting machine for the stack-overflow counterexample: U set in P,
A = 0. -/
def ceMach : Mach :=
  { A := 0, X := 0, Y := 0, SP := 0xFF, PC := 0x8000, P := 0x24, cycles := 0, mem := fun _ => 0 }

/-- Starting machine for the C8 witness: A = 0x42, P = 0x24. -/
def wsMach : Mach :=
  { A := 0x42, X := 0, Y := 0, SP := 0xFF, PC := 0x8000, P := 0x24, cycles := 0,
    mem := fun _ => 0 }

end K6502

namespace Bus


/-- VIC state: 40x25 screen cell array (offsets 0..999), advisory cursor and
the dirty flag, from VIC.h / VIC.cpp. -/
structure VICSt where
  screen : Nat → Nat
  cursor_x : Nat
  cursor_y : Nat
  dirty : Bool

/-- VIC::isScreenAddress: the window 0x0400..0x07E7. -/
def isScreenAddress (address : Nat) : Bool :=
  0x400 ≤ address && address ≤ 0x7E7

/-- VIC::writeScreen: in-window writes store the byte at offset
address - 0x0400 and raise the dirty flag. -/
def writeScreen (v : VICSt) (address value : Nat) : VICSt :=
  if isScreenAddress address then
    let offset := address - 0x400
    if offset < 1000 then
      { v with screen := fun i => if i = offset then value % 256 else v.screen i,
               dirty := true }
    else v
  else v

/-- VIC::readScreen: in-window reads return the stored cell, else 0. -/
def readScreen (v : VICSt) (address : Nat) : Nat :=
  if isScreenAddress address then
    let offset := address - 0x400
    if offset < 1000 then v.screen offset else 0
  else 0

/-- PIA state: keyboard circular buffer (32-entry array with head, tail and
count), port registers and the file-I/O block, from PIA.h. -/
structure PIASt where
  buffer : Nat → Nat
  head : Nat
  tail : Nat
  count : Nat
  portAData : Nat
  portADdr : Nat
  portAControl : Nat
  portBData : Nat
  portBDdr : Nat
  portBControl : Nat
  fileCommand : Nat
  fileStatus : Nat
  fileAddress : Nat
  fileEndAddress : Nat
  filename : Nat → Nat

/-- Control register flag bits, from PIA.h. -/
def kDataAvailable : Nat := 0x01

def kBufferFull : Nat := 0x02

def kInterruptFlag : Nat := 0x04

def kInterruptEnable : Nat := 0x08

/-- PIA::isPiaAddress: the window 0xDC00..0xDC21. -/
def isPiaAddress (address : Nat) : Bool :=
  0xDC00 ≤ address && address ≤ 0xDC21

/-- PIA::updateControlFlags: recompute bits 0..2 of the port A control
register from the FIFO count, keeping the interrupt-enable bit. -/
def updateControlFlags (p : PIASt) : PIASt :=
  let c := p.portAControl &&& (0xFF ^^^ (kDataAvailable ||| kBufferFull))
  let c := if p.count > 0 then c ||| kDataAvailable else c
  let c := if p.count ≥ 32 then c ||| kBufferFull else c
  let c :=
    if p.count > 0 && (c &&& kInterruptEnable != 0) then c ||| kInterruptFlag
    else c &&& (0xFF ^^^ kInterruptFlag)
  { p with portAControl := c }

/-- PIA::addKeypress: drop when the buffer is full, otherwise store at the
head, advance the head mod 32 and bump the count. -/
def addKeypress (p : PIASt) (ascii_code : Nat) : PIASt :=
  if p.count ≥ 32 then p
  else
    let p := { p with buffer := fun i => if i = p.head then ascii_code % 256 else p.buffer i,
                      head := (p.head + 1) % 32,
                      count := p.count + 1 }
    updateControlFlags p

/-- PIA::getKeypress: 0 when empty, otherwise consume the tail entry. -/
def getKeypress (p : PIASt) : Nat × PIASt :=
  if p.count = 0 then (0, p)
  else
    let key := p.buffer p.tail
    let p := { p with tail := (p.tail + 1) % 32, count := p.count - 1 }
    (key, updateControlFlags p)

/-- PIA::writePia, decoding by offset from 0xDC00 as the switch does.
Out-of-window writes are ignored. -/
def writePia (p : PIASt) (address value₀ : Nat) : PIASt :=
  if isPiaAddress address then
    let value := value₀ % 256
    let offset := address - 0xDC00
    if offset = 0x00 then { p with portAData := value }
    else if offset = 0x01 then { p with portADdr := value }
    else if offset = 0x02 then updateControlFlags { p with portAControl := value }
    else if offset = 0x03 then { p with portBData := value }
    else if offset = 0x04 then { p with portBDdr := value }
    else if offset = 0x05 then { p with portBControl := value }
    else if offset = 0x10 then
      let p := { p with fileCommand := value }
      if value = 0x01 ∨ value = 0x02 then { p with fileStatus := 0x01 } else p
    else if offset = 0x12 then
      { p with fileAddress := (p.fileAddress &&& 0xFF00) ||| value }
    else if offset = 0x13 then
      { p with fileAddress := (p.fileAddress &&& 0x00FF) ||| (value <<< 8) }
    else if offset = 0x20 then
      { p with fileEndAddress := (p.fileEndAddress &&& 0xFF00) ||| value }
    else if offset = 0x21 then
      { p with fileEndAddress := (p.fileEndAddress &&& 0x00FF) ||| (value <<< 8) }
    else if 0x14 ≤ offset ∧ offset < 0x14 + 12 then
      { p with filename := fun i => if i = offset - 0x14 then value else p.filename i }
    else p
  else p

/-- PIA::readPia: the switch covers the port registers and the file status;
every other offset (including the file command and the four address
registers) reaches the default branch and reads 0.  Reading the data
register consumes one FIFO entry. -/
def readPia (p : PIASt) (address : Nat) : Nat × PIASt :=
  if isPiaAddress address then
    let offset := address - 0xDC00
    if offset = 0x00 then
      if p.count > 0 then
        let r := getKeypress p
        (r.1, updateControlFlags r.2)
      else (0, p)
    else if offset = 0x01 then (p.portADdr, p)
    else if offset = 0x02 then
      let p := updateControlFlags p
      (p.portAControl, p)
    else if offset = 0x03 then (p.portBData, p)
    else if offset = 0x04 then (p.portBDdr, p)
    else if offset = 0x05 then (p.portBControl, p)
    else if offset = 0x11 then (p.fileStatus, p)
    else (0, p)
  else (0, p)

/-- Bus state: the 65536-byte RAM vector (a total function on Nat whose
valid indices are 0..0xFFFF), the video chip and the PIA, from Memory.h. -/
structure MemSt where
  ram : Nat → Nat
  vic : VICSt
  pia : PIASt

/-- Memory::read: dispatch to the PIA window, then the screen window, then
raw RAM.  A PIA data-register read mutates the FIFO, so the updated bus
state is returned too. -/
def read (m : MemSt) (address₀ : Nat) : Nat × MemSt :=
  let address := address₀ % 65536
  if isPiaAddress address then
    let r := readPia m.pia address
    (r.1, { m with pia := r.2 })
  else if isScreenAddress address then (readScreen m.vic address, m)
  else (m.ram address % 256, m)

/-- Memory::write: dispatch to the PIA window, then the screen window, then
raw RAM. -/
def write (m : MemSt) (address₀ value₀ : Nat) : MemSt :=
  let address := address₀ % 65536
  let value := value₀ % 256
  if isPiaAddress address then { m with pia := writePia m.pia address value }
  else if isScreenAddress address then { m with vic := writeScreen m.vic address value }
  else { m with ram := fun i => if i = address then value else m.ram i }

/-- Memory::readWord: two dispatched byte reads, low from addr and high from
addr+1 (the int sum truncated back to uint16 at read's parameter), composed
little-endian. -/
def readWord (m : MemSt) (address₀ : Nat) : Nat × MemSt :=
  let address := address₀ % 65536
  let lo := read m address
  let hi := read lo.2 (address + 1)
  (lo.1 ||| (hi.1 <<< 8), hi.2)

/-- Memory::writeWord: two direct stores into the RAM vector at indices
address and address+1, bypassing the dispatch; the index address+1 is the
plain int sum, so at address 0xFFFF it denotes the out-of-bounds slot
0x10000 one past the end of the vector. -/
def writeWord (m : MemSt) (address₀ value₀ : Nat) : MemSt :=
  let address := address₀ % 65536
  let value := value₀ % 65536
  { m with ram := fun i =>
      if i = address + 1 then (value >>> 8) &&& 0xFF
      else if i = address then value &&& 0xFF
      else m.ram i }

/-- PIA state as built by the PIA constructor: cleared buffer and registers,
idle file block. -/
def pia0 : PIASt :=
  { buffer := fun _ => 0, head := 0, tail := 0, count := 0,
    portAData := 0, portADdr := 0, portAControl := 0,
    portBData := 0, portBDdr := 0, portBControl := 0,
    fileCommand := 0, fileStatus := 0, fileAddress := 0, fileEndAddress := 0,
    filename := fun _ => 0 }

/-- VIC state as built by the VIC constructor (clearScreen fills with
spaces and sets the dirty flag). -/
def vic0 : VICSt :=
  { screen := fun _ => 0x20, cursor_x := 0, cursor_y := 0, dirty := true }

/-- A bus whose RAM is zero-filled, with freshly constructed peripherals. -/
def bus0 : MemSt :=
  { ram := fun _ => 0, vic := vic0, pia := pia0 }

/-- Run n enqueues, the i-th with key code ks i. -/
def enqueues : Nat → (Nat → Nat) → PIASt → PIASt
  | 0, _, p => p
  | n + 1, ks, p => addKeypress (enqueues n ks p) (ks n)

/-- Run m dequeues. -/
def dequeues : Nat → PIASt → PIASt
  | 0, p => p
  | m + 1, p => dequeues m (getKeypress p).2

end Bus

namespace K6502

theorem pushStep_A (p : StackOp) (s : Mach) : (pushStep p s).A = s.A := by
  cases p <;> rfl

theorem pushStep_P (p : StackOp) (s : Mach) : (pushStep p s).P = s.P := by
  cases p <;> rfl

theorem pushStep_SP (p : StackOp) (s : Mach) :
    (pushStep p s).SP = (s.SP % 256 + 255) % 256 := by
  cases p <;> rfl

theorem pushStep_mem (p : StackOp) (s : Mach) :
    (pushStep p s).mem =
      fun a => if a = (0x100 + s.SP % 256) % 65536 then pushVal p s % 256 else s.mem a := by
  cases p <;> rfl

theorem pullStep_mem (p : StackOp) (s : Mach) : (pullStep p s).mem = s.mem := by
  cases p <;> rfl

theorem pullStep_SP (p : StackOp) (s : Mach) :
    (pullStep p s).SP = (s.SP % 256 + 1) % 256 := by
  cases p <;> rfl

theorem runPushes_A (l : List StackOp) (s : Mach) : (runPushes l s).A = s.A := by
  induction l generalizing s with
  | nil => rfl
  | cons p l ih => rw [runPushes, ih, pushStep_A]

theorem runPushes_P (l : List StackOp) (s : Mach) : (runPushes l s).P = s.P := by
  induction l generalizing s with
  | nil => rfl
  | cons p l ih => rw [runPushes, ih, pushStep_P]

theorem runPushes_SP_lt (l : List StackOp) (s : Mach) (h : s.SP < 256) :
    (runPushes l s).SP < 256 := by
  induction l generalizing s with
  | nil => exact h
  | cons p l ih =>
    rw [runPushes]
    exact ih _ (by rw [pushStep_SP]; omega)

theorem runPulls_mem (l : List StackOp) (s : Mach) : (runPulls l s).mem = s.mem := by
  induction l with
  | nil => rfl
  | cons p l ih => rw [runPulls, pullStep_mem, ih]

theorem runPushes_append (l₁ l₂ : List StackOp) (s : Mach) :
    runPushes (l₁ ++ l₂) s = runPushes l₂ (runPushes l₁ s) := by
  induction l₁ generalizing s with
  | nil => rfl
  | cons p l ih => rw [List.cons_append, runPushes, runPushes, ih]

theorem runPushes_mem_above (l : List StackOp) (s : Mach) (k : Nat) (hk : 0 < k)
    (hlen : k + l.length ≤ 256) (hsp : s.SP < 256) :
    (runPushes l s).mem (0x100 + (s.SP + k) % 256) = s.mem (0x100 + (s.SP + k) % 256) := by
  induction l generalizing s k with
  | nil => rfl
  | cons p l ih =>
    rw [runPushes]
    have hlen' : l.length + 1 ≤ 256 - k := by
      simp [List.length_cons] at hlen; omega
    have hsp' : (pushStep p s).SP < 256 := by rw [pushStep_SP]; omega
    have haddr : 0x100 + (s.SP + k) % 256 = 0x100 + ((pushStep p s).SP + (k + 1)) % 256 := by
      rw [pushStep_SP]; omega
    rw [haddr, ih (pushStep p s) (k + 1) (by omega) (by simp [List.length_cons] at hlen; omega) hsp']
    rw [← haddr, pushStep_mem]
    have hne : 0x100 + (s.SP + k) % 256 ≠ (0x100 + s.SP % 256) % 65536 := by omega
    simp [hne]

theorem roundtrip_SP (l : List StackOp) (s : Mach) (hsp : s.SP < 256) :
    (runPulls l (runPushes l s)).SP = s.SP := by
  induction l generalizing s with
  | nil => exact Nat.mod_eq_of_lt hsp ▸ rfl
  | cons p l ih =>
    rw [runPulls, runPushes, pullStep_SP, ih _ (by rw [pushStep_SP]; omega), pushStep_SP]
    omega


theorem stepPla_A (s : Mach) :
    (stepPla s).A = s.mem ((0x100 + (s.SP % 256 + 1) % 256) % 65536) % 256 := rfl

theorem stepPlp_P (s : Mach) :
    (stepPlp s).P =
      ((s.mem ((0x100 + (s.SP % 256 + 1) % 256) % 65536) % 256)
        &&& (0xFF ^^^ (kBreak ||| kUnused))) ||| kUnused := rfl

set_option maxRecDepth 4000 in
theorem plp_mask_helper : ∀ x < 256,
    ((x ||| (kBreak ||| kUnused)) % 256 % 256 &&& (0xFF ^^^ (kBreak ||| kUnused))) ||| kUnused
      = ((x ||| (kBreak ||| kUnused)) &&& (0xFF ^^^ kBreak)) ||| kUnused := by
  decide

/-- Claim C8 (amended): for every starting CPU state with the U bit set and
every sequence of at most 256 PHA/PHP pushes followed by the matching
PLA/PLP pulls in LIFO order, each PLA restores the accumulator value that
the matching PHA pushed, and each PLP restores the status byte that the
matching PHP pushed except with B cleared and U set.  The bound of 256
pushes is forced by the eight-bit stack pointer: a 257th push overwrites
the first slot (see the counterexample). -/
theorem c8_stack_roundtrip_amended (xs ys : List StackOp) (p : StackOp) (s : Mach)
    (hlen : xs.length + ys.length < 256) (hsp : s.SP < 256)
    (hA : s.A < 256) (hP : s.P < 256) (_hU : s.P &&& kUnused ≠ 0) :
    (p = StackOp.pha →
      (pullStep p (runPulls ys (runPushes (xs ++ p :: ys) s))).A = s.A) ∧
    (p = StackOp.php →
      (pullStep p (runPulls ys (runPushes (xs ++ p :: ys) s))).P
        = ((s.P ||| (kBreak ||| kUnused)) &&& (0xFF ^^^ kBreak)) ||| kUnused) := by
  have hsplit : runPushes (xs ++ p :: ys) s = runPushes ys (pushStep p (runPushes xs s)) := by
    rw [runPushes_append]; rfl
  set s1 := runPushes xs s with hs1
  set s2 := pushStep p s1 with hs2
  have h1A : s1.A = s.A := runPushes_A xs s
  have h1P : s1.P = s.P := runPushes_P xs s
  have h1sp : s1.SP < 256 := runPushes_SP_lt xs s hsp
  have h2sp : s2.SP = (s1.SP + 255) % 256 := by
    rw [hs2, pushStep_SP, Nat.mod_eq_of_lt h1sp]
  have h2sp' : s2.SP < 256 := by omega
  set t := runPulls ys (runPushes ys s2) with ht
  have htmem : t.mem = (runPushes ys s2).mem := runPulls_mem ys _
  have htSP : t.SP = s2.SP := roundtrip_SP ys s2 h2sp'
  have hslotaddr : 0x100 + (s2.SP + 1) % 256 = 0x100 + s1.SP := by omega
  have hslot : (runPushes ys s2).mem (0x100 + s1.SP) = s2.mem (0x100 + s1.SP) := by
    have h := runPushes_mem_above ys s2 1 (by omega) (by omega) h2sp'
    rwa [hslotaddr] at h
  have hs2mem : s2.mem (0x100 + s1.SP) = pushVal p s1 % 256 := by
    rw [hs2, pushStep_mem]
    have h1 : (0x100 + s1.SP % 256) % 65536 = 0x100 + s1.SP := by omega
    simp [h1]
  have hspaddr : (0x100 + (t.SP % 256 + 1) % 256) % 65536 = 0x100 + s1.SP := by
    rw [htSP]; omega
  have hval : t.mem ((0x100 + (t.SP % 256 + 1) % 256) % 65536) = pushVal p s1 % 256 := by
    rw [hspaddr, htmem, hslot, hs2mem]
  constructor
  . intro hp
    subst hp
    rw [hsplit, ← ht]
    show (stepPla t).A = s.A
    rw [stepPla_A, hval]
    simp only [pushVal]
    rw [h1A]
    simp [Nat.mod_eq_of_lt hA]
  . intro hp
    subst hp
    rw [hsplit, ← ht]
    show (stepPlp t).P = ((s.P ||| (kBreak ||| kUnused)) &&& (0xFF ^^^ kBreak)) ||| kUnused
    rw [stepPlp_P, hval]
    simp only [pushVal]
    rw [h1P]
    exact plp_mask_helper s.P hP

/-- Keys of the handlers table coincide with the legal opcode list. -/
theorem handlers_keys : handlers.map (fun e => e.1) = legalOpcodes := by rfl

/-- An opcode outside the legal set has no entry in the dispatch map. -/
theorem decode_eq_none (op : Nat) (h : op ∉ legalOpcodes) : decode op = none := by
  have hf : handlers.find? (fun e => e.1 == op) = none := by
    rw [List.find?_eq_none]
    intro e he heq
    simp only [beq_iff_eq] at heq
    apply h
    rw [← handlers_keys, ← heq]
    exact List.mem_map_of_mem _ he
  simp [decode, hf]

/-- Claim C1: with D clear, ADC leaves the accumulator equal to
(A + M + C) & 0xFF and sets carry iff the 16-bit sum exceeds 0xFF, but at
A = 0x80, M = 0x80, C = 0 the code clears the overflow flag even though the
classic formula ((A^r) & (M^r) & 0x80) != 0 requires it set: the source's
predicate val1 < 128 && val2 < 128 && result > 127 misses the
negative-plus-negative overflow case. -/
theorem c1_adc_overflow_code_divergence :
    (addValues 0x24 0x80 0x80).1 = (0x80 + 0x80 + 0) % 256 ∧
    getFlag (addValues 0x24 0x80 0x80).2 kCarry = true ∧
    getFlag (addValues 0x24 0x80 0x80).2 kOverflow = false ∧
    ((0x80 ^^^ (0x80 + 0x80 + 0)) &&& (0x80 ^^^ (0x80 + 0x80 + 0)) &&& 0x80 ≠ 0) := by
  decide

/-- Claim C2: running scenario S1 (A9 42 8D 34 12 00 at 0x0200, PC = 0x0200,
SP = 0xFF, P = 0x24) for two steps gives A = 0x42, Z = 0, N = 0 and
mem[0x1234] = 0x42 as the claim states, but the cycle counter advances by 8,
not 6: readByte charges one cycle for every opcode fetch on top of the full
base cycle count of each handler (3 for LDA immediate, 5 for STA absolute). -/
theorem c2_s1_scenario_cycles_divergence :
    (stepN 2 s1Mach).A = 0x42 ∧
    getFlag (stepN 2 s1Mach).P kZero = false ∧
    getFlag (stepN 2 s1Mach).P kNegative = false ∧
    (stepN 2 s1Mach).read8 0x1234 = 0x42 ∧
    (stepN 2 s1Mach).cycles = s1Mach.cycles + 8 ∧
    ¬((stepN 2 s1Mach).cycles = s1Mach.cycles + 6) := by
  decide

/-- Claim C3: for every machine state whose fetched opcode is not in the
legal instruction set, executeSingleInstruction returns false, the PC has
advanced by exactly one (mod 2^16), the cycle counter by exactly one, and
A, X, Y, SP, P and all of memory are unchanged. -/
theorem c3_illegal_opcode_step (s : Mach) (h : s.read8 s.PC ∉ legalOpcodes) :
    (executeSingleInstruction s).1 = false ∧
    (executeSingleInstruction s).2.PC = (s.PC + 1) % 65536 ∧
    (executeSingleInstruction s).2.cycles = s.cycles + 1 ∧
    (executeSingleInstruction s).2.A = s.A ∧
    (executeSingleInstruction s).2.X = s.X ∧
    (executeSingleInstruction s).2.Y = s.Y ∧
    (executeSingleInstruction s).2.SP = s.SP ∧
    (executeSingleInstruction s).2.P = s.P ∧
    (executeSingleInstruction s).2.mem = s.mem := by
  have hd : decode (s.read8 s.PC) = none := decode_eq_none _ h
  simp [executeSingleInstruction, readByteF, hd]

/-- Witness for claim C3 at a machine whose memory holds the illegal opcode
0xFF everywhere. -/
theorem c3_illegal_opcode_step_witness :
    (illegalMach.read8 illegalMach.PC ∉ legalOpcodes) ∧
    ((executeSingleInstruction illegalMach).1 = false ∧
     (executeSingleInstruction illegalMach).2.PC = (illegalMach.PC + 1) % 65536 ∧
     (executeSingleInstruction illegalMach).2.cycles = illegalMach.cycles + 1 ∧
     (executeSingleInstruction illegalMach).2.A = illegalMach.A ∧
     (executeSingleInstruction illegalMach).2.X = illegalMach.X ∧
     (executeSingleInstruction illegalMach).2.Y = illegalMach.Y ∧
     (executeSingleInstruction illegalMach).2.SP = illegalMach.SP ∧
     (executeSingleInstruction illegalMach).2.P = illegalMach.P ∧
     (executeSingleInstruction illegalMach).2.mem = illegalMach.mem) :=
  ⟨by decide, c3_illegal_opcode_step illegalMach (by decide)⟩

set_option maxRecDepth 4000 in
theorem or_kBreak_lt : ∀ x < 256, x ||| kBreak < 256 := by decide

set_option maxRecDepth 4000 in
theorem or_kBreak_kInterrupt_and : ∀ x < 256, ((x ||| kBreak) ||| kInterrupt) &&& kBreak ≠ 0 := by
  decide

/-- Field characterization of handleBrk: the live P gains B and I, and the
pushed status byte (third push, at 0x0100 + SP-2) is the old P with only B
forced set. -/
theorem handleBrk_spec (u : Mach) (hsp : u.SP < 256) (hP : u.P < 256) :
    (handleBrk u).P = (u.P ||| kBreak) ||| kInterrupt ∧
    (handleBrk u).read8 (0x100 + (u.SP + 254) % 256) = u.P ||| kBreak ∧
    (handleBrk u).P &&& kBreak ≠ 0 := by
  have hsp1 : u.SP % 256 = u.SP := Nat.mod_eq_of_lt hsp
  have hPB : u.P ||| kBreak < 256 := or_kBreak_lt u.P hP
  refine ⟨?_, ?_, ?_⟩
  · simp [handleBrk, pushStack16F, pushByteF, Mach.write8, setFlag]
  · simp only [handleBrk, pushStack16F, pushByteF, Mach.write8, Mach.read8, setFlag, if_true, hsp1]
    rw [if_pos (by omega), Nat.mod_eq_of_lt (Nat.mod_lt _ (by omega)), Nat.mod_eq_of_lt hPB]
  · have h := or_kBreak_kInterrupt_and u.P hP
    have hp : (handleBrk u).P = (u.P ||| kBreak) ||| kInterrupt := by
      simp [handleBrk, pushStack16F, pushByteF, Mach.write8, setFlag]
    rw [hp]
    exact h

/-- Counterexample to claim C4: one BRK executed from the reset state over
all-zero memory leaves the B bit set in the live P register, so B is not
confined to the pushed byte. -/
theorem c4_brk_break_counterexample :
    ((executeSingleInstruction (reset zeroMach)).2.P &&& kBreak ≠ 0) := by
  decide

/-- Claim C4 (amended): executing BRK pushes a status byte equal to the old
P with B forced set (U is pushed as it was), sets the I flag, and also sets
B in the CPU's own P register, where it remains after the instruction:
the live P afterwards is the old P with B and I set. -/
theorem c4_brk_break_amended (s : Mach) (hsp : s.SP < 256) (hP : s.P < 256)
    (hop : s.read8 s.PC = 0) :
    (executeSingleInstruction s).2.P = (s.P ||| kBreak) ||| kInterrupt ∧
    (executeSingleInstruction s).2.read8 (0x100 + (s.SP + 254) % 256) = s.P ||| kBreak ∧
    (executeSingleInstruction s).2.P &&& kBreak ≠ 0 := by
  have h1 : (readByteF s).1 = 0 := hop
  have hstep : (executeSingleInstruction s).2 = handleBrk (readByteF s).2 := by
    simp only [executeSingleInstruction, h1]
    rfl
  rw [hstep]
  exact handleBrk_spec (readByteF s).2 hsp hP

/-- Witness for the amended claim C4 at a reset-like machine sitting on a
BRK opcode. -/
theorem c4_brk_break_amended_witness :
    (brkMach.SP < 256 ∧ brkMach.P < 256 ∧ brkMach.read8 brkMach.PC = 0) ∧
    ((executeSingleInstruction brkMach).2.P = (brkMach.P ||| kBreak) ||| kInterrupt ∧
     (executeSingleInstruction brkMach).2.read8 (0x100 + (brkMach.SP + 254) % 256)
       = brkMach.P ||| kBreak ∧
     (executeSingleInstruction brkMach).2.P &&& kBreak ≠ 0) :=
  ⟨⟨by decide, by decide, by decide⟩,
   c4_brk_break_amended brkMach (by decide) (by decide) (by decide)⟩

/-- Claim C5: CMP/CPX/CPY set C iff reg >= M and Z iff reg == M, but at
reg = 0x00, M = 0x01 the code leaves N clear even though bit 7 of
(reg - M) & 0xFF = 0xFF is set: compareValues takes N from bit 7 of the
register operand instead of the difference. -/
theorem c5_cmp_negative_divergence :
    getFlag (compareValues 0x24 0x00 0x01) kCarry = false ∧
    getFlag (compareValues 0x24 0x00 0x01) kZero = false ∧
    getFlag (compareValues 0x24 0x00 0x01) kNegative = false ∧
    (((0x00 + 256 - 0x01) % 256) &&& 0x80 ≠ 0) := by
  decide

set_option maxRecDepth 100000 in
/-- Counterexample to claim C8: with 257 pushes (256 PHA then one PHP) the
PHP overwrites the stack slot of the first PHA, so the final matching PLA
does not restore the accumulator value that the first PHA pushed. -/
theorem c8_stack_roundtrip_counterexample :
    ¬((runPulls cePushes (runPushes cePushes ceMach)).A = ceMach.A) := by
  decide

/-- Witness for the amended claim C8 with pushes PHP, PHA, PHA and the
middle push as the tracked one. -/
theorem c8_stack_roundtrip_amended_witness :
    (([StackOp.php].length + [StackOp.pha].length < 256) ∧ wsMach.SP < 256 ∧
      wsMach.A < 256 ∧ wsMach.P < 256 ∧ wsMach.P &&& kUnused ≠ 0) ∧
    ((StackOp.pha = StackOp.pha →
       (pullStep StackOp.pha
         (runPulls [StackOp.pha]
           (runPushes ([StackOp.php] ++ StackOp.pha :: [StackOp.pha]) wsMach))).A
         = wsMach.A) ∧
     (StackOp.pha = StackOp.php →
       (pullStep StackOp.pha
         (runPulls [StackOp.pha]
           (runPushes ([StackOp.php] ++ StackOp.pha :: [StackOp.pha]) wsMach))).P
         = ((wsMach.P ||| (kBreak ||| kUnused)) &&& (0xFF ^^^ kBreak)) ||| kUnused)) :=
  ⟨⟨by decide, by decide, by decide, by decide, by decide⟩,
   c8_stack_roundtrip_amended [StackOp.php] [StackOp.pha] StackOp.pha wsMach
     (by decide) (by decide) (by decide) (by decide) (by decide)⟩

end K6502

namespace Bus


theorem updateControlFlags_count (p : PIASt) : (updateControlFlags p).count = p.count := rfl

theorem addKeypress_count (p : PIASt) (k : Nat) :
    (addKeypress p k).count = if p.count ≥ 32 then p.count else p.count + 1 := by
  by_cases h : p.count ≥ 32 <;> simp [addKeypress, h, updateControlFlags_count]

theorem getKeypress_count (p : PIASt) : ((getKeypress p).2).count = p.count - 1 := by
  by_cases h : p.count = 0 <;> simp [getKeypress, h, updateControlFlags_count]

/-- Enqueues saturate the count at the 32-entry capacity. -/
theorem enqueues_count (n : Nat) (ks : Nat → Nat) (p : PIASt) (h : p.count ≤ 32) :
    (enqueues n ks p).count = min (p.count + n) 32 := by
  induction n with
  | zero => simp [enqueues]; omega
  | succ n ih =>
    rw [enqueues, addKeypress_count, ih]
    by_cases h2 : min (p.count + n) 32 ≥ 32
    · rw [if_pos h2]; omega
    · rw [if_neg h2]; omega

/-- Dequeues lower the count with truncation at zero. -/
theorem dequeues_count (m : Nat) (p : PIASt) : (dequeues m p).count = p.count - m := by
  induction m generalizing p with
  | zero => rfl
  | succ m ih => rw [dequeues, ih, getKeypress_count]; omega

/-- Claim C6: the bus word-write stores its low byte at raw-RAM index a and
its high byte at raw-RAM index a+1 without entering the framebuffer or
peripheral dispatch (both peripheral states are unchanged for every address,
mapped windows included), whereas the bus word-read obtains both bytes
through the mapped dispatch, low from a and high from a+1, composed as
lo ||| (hi <<< 8); in particular a word read inside the framebuffer window
returns the screen cells, not the raw RAM the word-write targets. -/
theorem c6_word_write_read_asymmetry (m : MemSt) (a v : Nat) (ha : a < 65536) :
    ((writeWord m a v).vic = m.vic) ∧
    ((writeWord m a v).pia = m.pia) ∧
    ((writeWord m a v).ram a = (v % 65536) &&& 0xFF) ∧
    ((writeWord m a v).ram (a + 1) = ((v % 65536) >>> 8) &&& 0xFF) ∧
    ((readWord m a).1 = (read m a).1 ||| ((read (read m a).2 (a + 1)).1 <<< 8)) ∧
    (0x400 ≤ a ∧ a + 1 ≤ 0x7E7 →
      (readWord m a).1 = m.vic.screen (a - 0x400) ||| (m.vic.screen (a + 1 - 0x400) <<< 8)) := by
  have hmod : a % 65536 = a := Nat.mod_eq_of_lt ha
  refine ⟨rfl, rfl, ?_, ?_, ?_, ?_⟩
  · simp [writeWord, hmod]
  · simp [writeWord, hmod]
  · simp only [readWord, hmod]
  · intro hw
    have hp1 : isPiaAddress a = false := by simp [isPiaAddress]; omega
    have hs1 : isScreenAddress a = true := by simp [isScreenAddress]; omega
    have hp2 : isPiaAddress (a + 1) = false := by simp [isPiaAddress]; omega
    have hs2 : isScreenAddress (a + 1) = true := by simp [isScreenAddress]; omega
    have hmod2 : (a + 1) % 65536 = a + 1 := Nat.mod_eq_of_lt (by omega)
    simp only [readWord, read, hmod, hmod2, hp1, hs1, hp2, hs2, Bool.false_eq_true,
      if_false, if_true]
    simp only [readScreen, hs1, hs2, if_true]
    rw [if_pos (by omega), if_pos (by omega)]

/-- Witness for claim C6 at the zero-filled bus, address 0x0500 (inside the
framebuffer window) and value 0xBEEF. -/
theorem c6_word_write_read_asymmetry_witness :
    ((0x500 : Nat) < 65536) ∧
    (((writeWord bus0 0x500 0xBEEF).vic = bus0.vic) ∧
     ((writeWord bus0 0x500 0xBEEF).pia = bus0.pia) ∧
     ((writeWord bus0 0x500 0xBEEF).ram 0x500 = (0xBEEF % 65536) &&& 0xFF) ∧
     ((writeWord bus0 0x500 0xBEEF).ram (0x500 + 1) = ((0xBEEF % 65536) >>> 8) &&& 0xFF) ∧
     ((readWord bus0 0x500).1 =
       (read bus0 0x500).1 ||| ((read (read bus0 0x500).2 (0x500 + 1)).1 <<< 8)) ∧
     (0x400 ≤ 0x500 ∧ 0x500 + 1 ≤ 0x7E7 →
       (readWord bus0 0x500).1 =
         bus0.vic.screen (0x500 - 0x400) ||| (bus0.vic.screen (0x500 + 1 - 0x400) <<< 8))) :=
  ⟨by decide, c6_word_write_read_asymmetry bus0 0x500 0xBEEF (by decide)⟩

/-- Counterexample to claim C7: writing command 1 to the file command
register 0xDC10 sets the file status to in-progress, but a CPU read of
0xDC10 returns 0, not the current file status. -/
theorem c7_file_command_read_counterexample :
    (writePia pia0 0xDC10 1).fileStatus = 1 ∧
    ¬((readPia (writePia pia0 0xDC10 1) 0xDC10).1 = (writePia pia0 0xDC10 1).fileStatus) := by
  decide

/-- Claim C7 (amended): for every peripheral state, CPU reads of the file
command register (offset 0x10) and of the file address low/high (0x12/0x13)
and file end-address low/high (0x20/0x21) registers all return 0x00 (these
offsets reach the read switch's default branch); only the file status
register at offset 0x11 returns the stored file status. -/
theorem c7_file_register_reads_amended (p : PIASt) :
    (readPia p 0xDC10).1 = 0 ∧ (readPia p 0xDC12).1 = 0 ∧ (readPia p 0xDC13).1 = 0 ∧
    (readPia p 0xDC20).1 = 0 ∧ (readPia p 0xDC21).1 = 0 ∧
    (readPia p 0xDC11).1 = p.fileStatus :=
  ⟨rfl, rfl, rfl, rfl, rfl, rfl⟩

/-- Counterexample to claim C9: after 33 enqueues and 1 dequeue from an
empty FIFO the count is 31, not the claimed clamp of N - M = 32: the 33rd
enqueue was dropped by the full buffer before the dequeue happened. -/
theorem c9_fifo_count_counterexample :
    ¬((dequeues 1 (enqueues 33 (fun _ => 65) pia0)).count = 32) := by
  decide

/-- Claim C9 (amended): starting from the empty keyboard FIFO, an enqueue of
any byte k immediately followed by a dequeue yields k, and after N enqueues
followed by M dequeues the count equals min(N, 32) - M truncated at 0
(enqueues saturate at the capacity of 32 before the dequeues subtract). -/
theorem c9_fifo_amended (k : Nat) (ks : Nat → Nat) (N M : Nat) (hk : k < 256) :
    (getKeypress (addKeypress pia0 k)).1 = k ∧
    (dequeues M (enqueues N ks pia0)).count = min N 32 - M := by
  constructor
  · simp [addKeypress, getKeypress, updateControlFlags, pia0, Nat.mod_eq_of_lt hk]
  · rw [dequeues_count, enqueues_count N ks pia0 (by simp [pia0])]
    simp [pia0]

/-- Witness for the amended claim C9 at k = 65, N = 33, M = 1. -/
theorem c9_fifo_amended_witness :
    ((65 : Nat) < 256) ∧
    ((getKeypress (addKeypress pia0 65)).1 = 65 ∧
     (dequeues 1 (enqueues 33 (fun _ => 65) pia0)).count = min 33 32 - 1) :=
  ⟨by decide, c9_fifo_amended 65 (fun _ => 65) 33 1 (by decide)⟩

/-- Claim C10: the bus word-write at address 0xFFFF writes its high byte at
raw-RAM index 0x10000, one past the end of the 65536-byte RAM vector, and
leaves index 0x0000 untouched: the access does not stay within indices
0..0xFFFF and does not wrap. -/
theorem c10_write_word_oob :
    ((writeWord bus0 0xFFFF 0xABCD).ram 0x10000 = 0xAB) ∧
    ((writeWord bus0 0xFFFF 0xABCD).ram 0x0000 ≠ 0xAB) ∧ ((0x10000 : Nat) > 0xFFFF) := by
  decide

end Bus
